import Mathlib

/-!
Verification development for the LifelinkGh blood-donation backend.

The embedding models the donor-matching and request-fulfillment engine of
the repository: the blood-type compatibility resolver, the proximity
search, the donor matcher, and the response and confirmation workflow that
operate on four MongoDB collections (users, hospital_requests,
donation_responses, donation_records).

Modelling conventions:
- MongoDB documents become Lean structures; each collection becomes an
  association list from object id to document, and insert_one appends at
  the end (find_one returns the first match, as Mongo returns a stored
  document by id).
- Object ids (bson ObjectId and their string forms) are modelled by a
  single type of strings; ObjectId.is_valid is the 24-hex-digit check that
  pymmongo applies to strings.  Where a Mongo filter compares values of
  different BSON types (the donor exclusion of find_next_suitable_donor
  compares string donor_id values against ObjectId user ids), the typed
  value and its BSON equality are modelled explicitly by BsonVal.
- Latitude and longitude fields are stored as strings in the repository;
  a field is either absent, present but not numeric (float() raises
  ValueError), or numeric.  We model the three cases with an inductive
  type whose numeric case carries a rational.
- The haversine computation itself is IEEE-754 floating point with
  transcendental functions, so every operation that consumes a distance is
  parameterised by an abstract distance function on rationals; all claims
  about the search concern filtering, skipping and ordering, which hold or
  fail uniformly in the distance function.
- FastAPI rejects a confirmation token form value whose length is not 4
  before the handler runs (Form with min_length 4 and max_length 4 in the
  source); the model performs that check at the entry of confirm_donation.
- Handlers raise HTTPException; the model returns Except ApiError where
  each constructor stands for one HTTP status code used by the handlers.
-/

namespace LifelinkGh

/-- Object ids: bson ObjectId and its string form, identified. -/
abbrev Oid := String

/-- The check pymongo ObjectId.is_valid applies to a string: exactly 24
hexadecimal digits. -/
def oidIsValid (s : Oid) : Bool :=
  s.length == 24 && s.data.all (fun c =>
    c.isDigit || ('a' ≤ c && c ≤ 'f') || ('A' ≤ c && c ≤ 'F'))

/-- One constructor per HTTP error status used by the modelled handlers:
422 unprocessable (the taxonomy of the spec calls it ValidationError),
404 notFound, 409 conflict, 401 unauthorized, 400 badRequest (the spec
calls it InvalidState), 500 internalError (an uncaught exception such as
bson InvalidId raised by the ObjectId constructor). -/
inductive ApiError where
  | unprocessable
  | notFound
  | conflict
  | unauthorized
  | badRequest
  | internalError
deriving Repr, DecidableEq

/-- The whitespace set of the Python str.strip method with no argument. -/
def isPyWhitespace (c : Char) : Bool :=
  c == ' ' || c == '\t' || c == '\n' || c == '\r' || c == '\x0b' || c == '\x0c'

/-- str.strip() on a character list: drop whitespace at both ends. -/
def stripChars (l : List Char) : List Char :=
  ((l.dropWhile isPyWhitespace).reverse.dropWhile isPyWhitespace).reverse

/-- Normalization applied by get_compatible_donor_types in
src/routers/donor.py: upper-case, strip surrounding whitespace, delete
every space (str.upper, str.strip, str.replace of a space by nothing). -/
def normalizeBT (s : String) : String :=
  String.mk ((stripChars (s.data.map Char.toUpper)).filter (fun c => c != ' '))

/-- The compatibility dictionary of get_compatible_donor_types, recipient
type to acceptable donor types. -/
def compatibility_map : List (String × List String) :=
  [ ("O-", ["O-"]),
    ("O+", ["O-", "O+"]),
    ("A-", ["O-", "A-"]),
    ("A+", ["O-", "O+", "A-", "A+"]),
    ("B-", ["O-", "B-"]),
    ("B+", ["O-", "O+", "B-", "B+"]),
    ("AB-", ["O-", "A-", "B-", "AB-"]),
    ("AB+", ["O-", "O+", "A-", "A+", "B-", "B+", "AB-", "AB+"]) ]

/-- Dictionary access with default, as dict.get(key, default). -/
def compatLookup (rt : String) : List String :=
  (compatibility_map.lookup rt).getD [rt]

/-- get_compatible_donor_types from src/routers/donor.py lines 60 to 78. -/
def get_compatible_donor_types (requested_type : String) : List String :=
  compatLookup (normalizeBT requested_type)

/-- The eight recipient types the dictionary recognizes. -/
def recognized8 : List String :=
  compatibility_map.map Prod.fst

/-- A stored latitude or longitude field: absent, present but not
accepted by float(), or numeric. -/
inductive CoordVal where
  | missing
  | malformed (raw : String)
  | num (q : ℚ)
deriving Repr, DecidableEq

/-- A user document as written by the registration endpoints.  Fields the
donor endpoints read; absent Mongo fields are modelled by values that
match no filter (for example an empty availability string). -/
structure UserDoc where
  full_name : String
  role : String
  blood_type : String
  availability_status : String
  lat : CoordVal
  lon : CoordVal
  phone_number : String
  email : String
deriving Repr, DecidableEq

/-- A hospital_requests document: blood_type, quantity, patient_condition,
hospital_id, status. -/
structure RequestDoc where
  blood_type : String
  quantity : Int
  patient_condition : String
  hospital_id : Oid
  status : String
deriving Repr, DecidableEq

/-- A donation_responses document: request_id, donor_id, status,
responded_at, confirmation_token. -/
structure ResponseDoc where
  request_id : Oid
  donor_id : Oid
  status : String
  responded_at : Nat
  confirmation_token : Option String
deriving Repr, DecidableEq

/-- A donation_records document as assembled by confirm_donation. -/
structure RecordDoc where
  donor_id : Oid
  hospital_id : Oid
  hospital_name : String
  donation_date : String
  recipient_info : String
  status : String
  original_response_id : Oid
deriving Repr, DecidableEq

/-- The four collections the engine touches. -/
structure Store where
  users : List (Oid × UserDoc)
  requests : List (Oid × RequestDoc)
  responses : List (Oid × ResponseDoc)
  records : List (Oid × RecordDoc)
deriving Repr, DecidableEq

/-- find_one on hospital_requests by id. -/
def findReq (s : Store) (rid : Oid) : Option RequestDoc :=
  (s.requests.find? (fun p => p.1 == rid)).map Prod.snd

/-- find_one on donation_responses by id. -/
def findResp (s : Store) (rid : Oid) : Option ResponseDoc :=
  (s.responses.find? (fun p => p.1 == rid)).map Prod.snd

/-- find_one on donation_records by original_response_id. -/
def findRecordFor (s : Store) (response_id : Oid) : Option RecordDoc :=
  (s.records.find? (fun p => p.2.original_response_id == response_id)).map Prod.snd

/-- update_one on an association list: apply f to the documents whose id
matches; a missing id matches nothing and the list is unchanged. -/
def updateKey {β : Type} (l : List (Oid × β)) (rid : Oid) (f : β → β) :
    List (Oid × β) :=
  l.map (fun p => if p.1 == rid then (p.1, f p.2) else p)

/-- update_one set status on a donation_responses document. -/
def setRespStatus (s : Store) (rid : Oid) (st : String) : Store :=
  { s with responses := updateKey s.responses rid (fun r => { r with status := st }) }

/-- update_one set status on a hospital_requests document. -/
def setReqStatus (s : Store) (rid : Oid) (st : String) : Store :=
  { s with requests := updateKey s.requests rid (fun r => { r with status := st }) }

/-- Python truthiness of an optional form string: None and the empty
string are falsy. -/
def optTruthy : Option String → Bool
  | none => false
  | some s => !s.isEmpty

/-- Python truthiness of the stored confirmation token (None or empty
string are falsy). -/
def tokenTruthy : Option String → Bool
  | none => false
  | some s => !s.isEmpty

/-- Reading the lat and lon fields of a donor document as the search loops
do: a missing field is skipped by the explicit None check, a malformed one
by the except branch around float(); only the numeric case yields a
coordinate pair. -/
def coordsOf (u : UserDoc) : Option (ℚ × ℚ) :=
  match u.lat, u.lon with
  | .num a, .num b => some (a, b)
  | _, _ => none

/-- Banker rounding to the nearest integer of q * 100, as Python round
uses, computed on the numerator and denominator so that the kernel can
evaluate it: for q = n / d with d positive the floor of 100n / d is the
flooring integer division, and the fractional part r / d is compared with
one half through 2r and d. -/
def roundHalfEven100 (q : ℚ) : ℤ :=
  let n : ℤ := q.num * 100
  let d : ℤ := Int.ofNat q.den
  let f : ℤ := Int.fdiv n d
  let r : ℤ := n - d * f
  if 2 * r < d then f
  else if d < 2 * r then f + 1
  else if f % 2 == 0 then f else f + 1

/-- Python round(x, 2). -/
def round2 (q : ℚ) : ℚ :=
  mkRat (roundHalfEven100 q) 100

/-- One entry of the list built by find_nearby_donors. -/
structure MatchedDonor where
  id : Oid
  full_name : String
  phone_number : String
  email : String
  blood_type : String
  distance_km : ℚ
deriving Repr, DecidableEq

/-- find_nearby_donors from src/routers/donor.py lines 81 to 132,
parameterised by the distance function (the source computes the haversine
formula in floating point).  The Mongo query keeps available donors whose
blood type is in the compatible list; the loop then skips entries with
missing or malformed coordinates and keeps those within the radius, in
collection order. -/
def find_nearby_donors (dist : ℚ → ℚ → ℚ → ℚ → ℚ)
    (hospital_lat hospital_lon : ℚ) (requested_blood_type : String)
    (radius_km : ℚ) (users : List (Oid × UserDoc)) : List MatchedDonor :=
  let compatible_donor_types := get_compatible_donor_types requested_blood_type
  let potential_donors := users.filter (fun p =>
    p.2.role == "donor" && compatible_donor_types.contains p.2.blood_type &&
      p.2.availability_status == "available")
  potential_donors.filterMap (fun p =>
    match coordsOf p.2 with
    | none => none
    | some (donor_lat, donor_lon) =>
      let distance_km := dist hospital_lat hospital_lon donor_lat donor_lon
      if distance_km ≤ radius_km then
        some { id := p.1, full_name := p.2.full_name,
               phone_number := p.2.phone_number, email := p.2.email,
               blood_type := p.2.blood_type, distance_km := round2 distance_km }
      else none)

/-- One entry of the candidate list built by find_next_suitable_donor. -/
structure FoundDonor where
  id : Oid
  distance_km : ℚ
  full_name : String
deriving Repr, DecidableEq

/-- Python min over a nonempty list keyed by distance_km: the first
element attaining the minimum. -/
def minByDistance (h : FoundDonor) (t : List FoundDonor) : FoundDonor :=
  t.foldl (fun best d => if d.distance_km < best.distance_km then d else best) h

/-- A BSON value as a Mongo filter sees it: an ObjectId and a string are
distinct BSON types even when they print the same. -/
inductive BsonVal where
  | objectId (s : Oid)
  | str (s : Oid)
deriving Repr, DecidableEq

/-- BSON equality, as used by query operators such as nin: two values of
different BSON types never compare equal. -/
def bsonEq : BsonVal → BsonVal → Bool
  | .objectId a, .objectId b => a == b
  | .str a, .str b => a == b
  | _, _ => false

/-- The candidate list of find_next_suitable_donor from
src/routers/hospital.py lines 56 to 87: the blood type must equal the
requested one exactly, and each candidate within the radius carries its
rounded distance.  The handler builds excluded_donor_ids from the stored
donor_id fields of the responses; respond_to_request stores donor_id as
the raw current_user id, which is a Python string (the JWT payload in
users.py line 95 carries user_id as str of the ObjectId, and every other
comparison of that id against a stored _id wraps it in ObjectId, which
this handler omits).  The users _id values are ObjectIds, so the nin
filter compares an ObjectId against strings with BSON equality and never
matches: the exclusion removes nobody. -/
def foundDonors (dist : ℚ → ℚ → ℚ → ℚ → ℚ) (request_id : Oid)
    (blood_type : String) (hospital_lat hospital_lon : ℚ)
    (search_radius_km : ℚ) (s : Store) : List FoundDonor :=
  let excluded_donor_ids :=
    (s.responses.filter (fun p => p.2.request_id == request_id)).map
      (fun p => BsonVal.str p.2.donor_id)
  let potential_donors := s.users.filter (fun p =>
    p.2.role == "donor" && p.2.blood_type == blood_type &&
      p.2.availability_status == "available" &&
      !excluded_donor_ids.any (fun d => bsonEq (.objectId p.1) d))
  potential_donors.filterMap (fun p =>
    match coordsOf p.2 with
    | none => none
    | some (donor_lat, donor_lon) =>
      let distance_km := dist hospital_lat hospital_lon donor_lat donor_lon
      if distance_km ≤ search_radius_km then
        some { id := p.1, distance_km := round2 distance_km, full_name := p.2.full_name }
      else none)

/-- find_next_suitable_donor from src/routers/hospital.py lines 44 to 94:
None when no candidate is found, otherwise the closest candidate (Python
min over the rounded distances, first on ties). -/
def find_next_suitable_donor (dist : ℚ → ℚ → ℚ → ℚ → ℚ) (request_id : Oid)
    (blood_type : String) (hospital_lat hospital_lon : ℚ)
    (search_radius_km : ℚ) (s : Store) : Option FoundDonor :=
  match foundDonors dist request_id blood_type hospital_lat hospital_lon search_radius_km s with
  | [] => none
  | h :: t => some (minByDistance h t)

/-- respond_to_request from src/routers/donor.py lines 322 to 380.  The
generated 4-digit token is an oracle argument gen_token, the fresh
inserted id is new_id, and the timestamp is now. -/
def respond_to_request (s : Store) (request_id : Oid) (donor_id : Oid)
    (commitment_status : String) (gen_token : String) (new_id : Oid)
    (now : Nat) : Except ApiError Store :=
  if !oidIsValid request_id then .error .unprocessable
  else
    match findReq s request_id with
    | none => .error .notFound
    | some request_doc =>
      if request_doc.status != "active" then .error .badRequest
      else
        match s.responses.find? (fun p =>
            p.2.request_id == request_id && p.2.donor_id == donor_id) with
        | some _ => .error .conflict
        | none =>
          let confirmation_token :=
            if commitment_status == "committed" then some gen_token else none
          .ok { s with responses := s.responses ++
                  [(new_id, { request_id := request_id, donor_id := donor_id,
                              status := commitment_status, responded_at := now,
                              confirmation_token := confirmation_token })] }

/-- set_response_in_progress from src/routers/hospital.py lines 312 to
339.  The conditional update matches exactly when the response exists with
status committed; otherwise the handler reloads the document and branches
on it. -/
def set_response_in_progress (s : Store) (response_id : Oid) :
    Except ApiError Store :=
  if !oidIsValid response_id then .error .unprocessable
  else
    match findResp s response_id with
    | none => .error .notFound
    | some response_doc =>
      if response_doc.status == "committed" then
        .ok (setRespStatus s response_id "in progress")
      else if response_doc.status == "in progress" then
        .ok s
      else .error .badRequest

/-- confirm_donation from src/routers/hospital.py lines 361 to 418.  The
first check models the Form validation of the token (min_length 4,
max_length 4); then the handler validates the id, loads the response,
compares the token with Python truthiness, guards against an existing
record, inserts the record, and updates the response and the parent
request statuses. -/
def confirm_donation (s : Store) (response_id : Oid) (hospital_id : Oid)
    (hospital_name : String) (confirmation_token : String)
    (donation_date : String) (recipient_info : String)
    (new_record_id : Oid) : Except ApiError Store :=
  if confirmation_token.length != 4 then .error .unprocessable
  else if !oidIsValid response_id then .error .unprocessable
  else
    match findResp s response_id with
    | none => .error .notFound
    | some response =>
      if !tokenTruthy response.confirmation_token
          || response.confirmation_token != some confirmation_token then
        .error .unauthorized
      else
        match findRecordFor s response_id with
        | some _ => .error .conflict
        | none =>
          .ok (setReqStatus
                (setRespStatus
                  { s with records := s.records ++
                      [(new_record_id,
                        { donor_id := response.donor_id, hospital_id := hospital_id,
                          hospital_name := hospital_name, donation_date := donation_date,
                          recipient_info := recipient_info, status := "Completed",
                          original_response_id := response_id })] }
                  response_id "completed")
                response.request_id "fulfilled")

/-- create_request from src/routers/hospital.py lines 162 to 211: inserts
the document with status active (the notification block only logs). -/
def create_request (s : Store) (hospital_id : Oid) (blood_type : String)
    (quantity : Int) (patient_condition : String) (new_id : Oid) :
    Except ApiError Store :=
  .ok { s with requests := s.requests ++
          [(new_id, { blood_type := blood_type, quantity := quantity,
                      patient_condition := patient_condition,
                      hospital_id := hospital_id, status := "active" })] }

/-- Application of the update dictionary built by update_request to a
request document: truthy strings and a present quantity are applied. -/
def applyRequestUpdate (req : RequestDoc) (bt st pc : Option String)
    (qty : Option Int) : RequestDoc :=
  let r1 := match bt with
    | some b => if b.isEmpty then req else { req with blood_type := b }
    | none => req
  let r2 := match st with
    | some v => if v.isEmpty then r1 else { r1 with status := v }
    | none => r1
  let r3 := match qty with
    | some q => { r2 with quantity := q }
    | none => r2
  match pc with
    | some v => if v.isEmpty then r3 else { r3 with patient_condition := v }
    | none => r3

/-- update_request from src/routers/hospital.py lines 277 to 304: an empty
update dictionary is a 400, a malformed id makes the ObjectId constructor
raise (modelled internalError), an unknown id is a 404, and otherwise the
truthy fields are set on the document. -/
def update_request (s : Store) (request_id : Oid) (bt st pc : Option String)
    (qty : Option Int) : Except ApiError Store :=
  if !(optTruthy bt || optTruthy st || qty.isSome || optTruthy pc) then
    .error .badRequest
  else if !oidIsValid request_id then .error .internalError
  else
    match findReq s request_id with
    | none => .error .notFound
    | some _ =>
      .ok { s with requests :=
              updateKey s.requests request_id (fun r => applyRequestUpdate r bt st pc qty) }

/-- delete_request from src/routers/hospital.py lines 349 to 353. -/
def delete_request (s : Store) (request_id : Oid) : Except ApiError Store :=
  if !oidIsValid request_id then .error .internalError
  else if (findReq s request_id).isSome then
    .ok { s with requests := s.requests.filter (fun p => p.1 != request_id) }
  else .error .notFound

/-- The mutating operations of the engine, with oracle arguments for the
generated token, the fresh ids and the timestamp. -/
inductive Op where
  | createRequest (hospital_id : Oid) (blood_type : String) (quantity : Int)
      (patient_condition : String) (new_id : Oid)
  | updateRequest (request_id : Oid) (bt st pc : Option String) (qty : Option Int)
  | deleteRequest (request_id : Oid)
  | submitResponse (request_id donor_id : Oid) (commitment_status gen_token : String)
      (new_id : Oid) (now : Nat)
  | markInProgress (response_id : Oid)
  | confirmDonation (response_id hospital_id : Oid)
      (hospital_name token date info : String) (new_record_id : Oid)
deriving Repr, DecidableEq

/-- Dispatch of one operation. -/
def runOp (s : Store) : Op → Except ApiError Store
  | .createRequest h b q p n => create_request s h b q p n
  | .updateRequest r bt st pc qty => update_request s r bt st pc qty
  | .deleteRequest r => delete_request s r
  | .submitResponse r d c g n t => respond_to_request s r d c g n t
  | .markInProgress r => set_response_in_progress s r
  | .confirmDonation r h hn tok date info n =>
      confirm_donation s r h hn tok date info n

/-- A failed handler raises before writing, so the store is unchanged. -/
def step (s : Store) (op : Op) : Store :=
  match runOp s op with
  | .ok s2 => s2
  | .error _ => s

/-- Discriminator of the confirm-donation operation. -/
def Op.isConfirm : Op → Bool
  | .confirmDonation .. => true
  | _ => false

/-- The status_update form field of an update-request operation. -/
def Op.statusUpdateArg : Op → Option String
  | .updateRequest _ _ st _ _ => st
  | _ => none

/-- Success of an Except result. -/
def exceptOk : Except ApiError Store → Bool
  | .ok _ => true
  | .error _ => false

/-- Fixture object ids (24 hexadecimal characters each). -/
def oidA : Oid := "aaaaaaaaaaaaaaaaaaaaaaaa"

def oidB : Oid := "bbbbbbbbbbbbbbbbbbbbbbbb"

def oidC : Oid := "cccccccccccccccccccccccc"

def oidD : Oid := "dddddddddddddddddddddddd"

def oidE : Oid := "eeeeeeeeeeeeeeeeeeeeeeee"

def oidF : Oid := "ffffffffffffffffffffffff"

/-- Fixture store: one active request, one response holding token 1234. -/
def storeConfirm : Store :=
  { users := [],
    requests := [(oidB, { blood_type := "A+", quantity := 2,
                          patient_condition := "surgery", hospital_id := oidC,
                          status := "active" })],
    responses := [(oidA, { request_id := oidB, donor_id := oidD,
                           status := "in progress", responded_at := 0,
                           confirmation_token := some "1234" })],
    records := [] }

/-- Fixture store: a committed response whose parent request is no longer
active, and no donation record. -/
def storeConfirmInactive : Store :=
  { users := [],
    requests := [(oidB, { blood_type := "A+", quantity := 2,
                          patient_condition := "surgery", hospital_id := oidC,
                          status := "cancelled" })],
    responses := [(oidA, { request_id := oidB, donor_id := oidD,
                           status := "committed", responded_at := 0,
                           confirmation_token := some "4321" })],
    records := [] }

/-- Fixture store for the in-progress transition: responses in the three
reachable statuses. -/
def storeMark : Store :=
  { users := [],
    requests := [],
    responses :=
      [(oidA, { request_id := oidB, donor_id := oidD, status := "committed",
                responded_at := 0, confirmation_token := some "1111" }),
       (oidB, { request_id := oidB, donor_id := oidE, status := "in progress",
                responded_at := 1, confirmation_token := some "2222" }),
       (oidC, { request_id := oidB, donor_id := oidF, status := "completed",
                responded_at := 2, confirmation_token := some "3333" })],
    records := [] }


/-- The invariant of the claim on duplicate responses: at most one
response per donor and request pair (pairwise distinct pairs). -/
def responsesPairUnique (s : Store) : Prop :=
  s.responses.Pairwise (fun a b =>
    ¬(a.2.request_id = b.2.request_id ∧ a.2.donor_id = b.2.donor_id))

/-- The invariant of the claim on duplicate donation records: at most one
record per originating response id. -/
def recordsUnique (s : Store) : Prop :=
  s.records.Pairwise (fun a b => a.2.original_response_id ≠ b.2.original_response_id)

/-- Discriminator of the submit-response operation. -/
def Op.isSubmit : Op → Bool
  | .submitResponse .. => true
  | _ => false

/-- Fixture store: a request that is no longer active (already fulfilled)
whose donor already responded. -/
def storeSubmitDup : Store :=
  { users := [],
    requests := [(oidB, { blood_type := "A+", quantity := 1,
                          patient_condition := "anemia", hospital_id := oidC,
                          status := "fulfilled" })],
    responses := [(oidA, { request_id := oidB, donor_id := oidD,
                           status := "committed", responded_at := 0,
                           confirmation_token := some "1234" })],
    records := [] }

/-- Fixture store: an active request whose donor already responded. -/
def storeSubmitActive : Store :=
  { users := [],
    requests := [(oidB, { blood_type := "A+", quantity := 1,
                          patient_condition := "anemia", hospital_id := oidC,
                          status := "active" })],
    responses := [(oidA, { request_id := oidB, donor_id := oidD,
                           status := "committed", responded_at := 0,
                           confirmation_token := some "1234" })],
    records := [] }

/-- Fixture store: a response that already has a donation record. -/
def storeRecordDup : Store :=
  { users := [],
    requests := [(oidB, { blood_type := "A+", quantity := 1,
                          patient_condition := "anemia", hospital_id := oidC,
                          status := "active" })],
    responses := [(oidA, { request_id := oidB, donor_id := oidD,
                           status := "completed", responded_at := 0,
                           confirmation_token := some "1234" })],
    records := [(oidE, { donor_id := oidD, hospital_id := oidC,
                         hospital_name := "City Hospital",
                         donation_date := "2025-01-01",
                         recipient_info := "Patient Matched",
                         status := "Completed", original_response_id := oidA })] }

/-- A concrete distance function used to instantiate searches on concrete
inputs (it reads off the candidate latitude, so fixture distances are the
stored latitudes); the proximity claims hold or fail uniformly in the
distance parameter. -/
def projDist (lat1 lon1 lat2 lon2 : ℚ) : ℚ := lat2

/-- The condition a user document must satisfy to contribute a row to the
result of find_nearby_donors: the Mongo query conditions, readable numeric
coordinates, and distance within the radius. -/
def donorEligible (dist : ℚ → ℚ → ℚ → ℚ → ℚ) (compatible : List String)
    (hlat hlon radius : ℚ) (p : Oid × UserDoc) : Bool :=
  p.2.role == "donor" && compatible.contains p.2.blood_type &&
    p.2.availability_status == "available" &&
    match coordsOf p.2 with
    | none => false
    | some (la, lo) => decide (dist hlat hlon la lo ≤ radius)

/-- The summary row find_nearby_donors builds for a donor that passes all
filters (the coordinate fallback branch is never reached on eligible
donors). -/
def nearbySummary (dist : ℚ → ℚ → ℚ → ℚ → ℚ) (hlat hlon : ℚ)
    (p : Oid × UserDoc) : MatchedDonor :=
  { id := p.1, full_name := p.2.full_name, phone_number := p.2.phone_number,
    email := p.2.email, blood_type := p.2.blood_type,
    distance_km := match coordsOf p.2 with
      | some (la, lo) => round2 (dist hlat hlon la lo)
      | none => 0 }

/-- Fixture donor document at numeric coordinates. -/
def donorAt (name bt : String) (la lo : ℚ) : UserDoc :=
  { full_name := name, role := "donor", blood_type := bt,
    availability_status := "available", lat := .num la, lon := .num lo,
    phone_number := "0200000000", email := "donor@example.com" }

/-- Fixture users: a far donor stored before a near one, one donor beyond
the radius and one without coordinates. -/
def usersUnsorted : List (Oid × UserDoc) :=
  [ (oidA, donorAt "Far" "O-" 5 0),
    (oidB, donorAt "Near" "O-" 1 0),
    (oidC, donorAt "Beyond" "O-" 100 0),
    (oidD, { full_name := "NoCoords", role := "donor", blood_type := "O-",
             availability_status := "available", lat := .missing, lon := .missing,
             phone_number := "0200000000", email := "donor@example.com" }) ]

/-- The candidate pool as the claim describes it: blood type drawn from
the compatibility resolver and donors already engaged with the request
excluded.  Stated from the words of the claim, for comparison with the
pool the code builds (the code matches the blood type exactly). -/
def specCandidatePool (request_id : Oid) (blood_type : String) (s : Store) :
    List (Oid × UserDoc) :=
  s.users.filter (fun p =>
    p.2.role == "donor" && p.2.availability_status == "available" &&
    (get_compatible_donor_types blood_type).contains p.2.blood_type &&
    !((s.responses.filter (fun q => q.2.request_id == request_id)).map
        (fun q => q.2.donor_id)).contains p.1)

/-- Fixture store: a single available universal donor near the origin. -/
def storeMatcherO : Store :=
  { users := [(oidD, donorAt "Olive" "O-" 1 0)],
    requests := [(oidB, { blood_type := "A+", quantity := 1,
                          patient_condition := "anemia", hospital_id := oidC,
                          status := "active" })],
    responses := [],
    records := [] }

/-- Fixture store for the matcher: two exact-match donors stored far
before near, one exact-match donor already engaged with the request (not
excluded by the code, see foundDonors), one compatible donor of another
exact type. -/
def storeMatcherA : Store :=
  { users := [ (oidA, donorAt "FarA" "A+" 5 0),
               (oidB, donorAt "NearA" "A+" 1 0),
               (oidC, donorAt "Engaged" "A+" 2 0),
               (oidD, donorAt "Olive" "O-" 1 0) ],
    requests := [(oidE, { blood_type := "A+", quantity := 1,
                          patient_condition := "anemia", hospital_id := oidF,
                          status := "active" })],
    responses := [(oidF, { request_id := oidE, donor_id := oidC,
                           status := "committed", responded_at := 0,
                           confirmation_token := some "1234" })],
    records := [] }

/-- Fixture store: the only available exact-match donor has already
responded to the request. -/
def storeMatcherEngaged : Store :=
  { users := [(oidC, donorAt "Engaged" "A+" 2 0)],
    requests := [(oidE, { blood_type := "A+", quantity := 1,
                          patient_condition := "anemia", hospital_id := oidF,
                          status := "active" })],
    responses := [(oidF, { request_id := oidE, donor_id := oidC,
                           status := "committed", responded_at := 0,
                           confirmation_token := some "1234" })],
    records := [] }

end LifelinkGh

namespace LifelinkGh

lemma find?_map_of_pred {α : Type} (g : α → α) (p : α → Bool)
    (hp : ∀ x, p (g x) = p x) (l : List α) :
    (l.map g).find? p = (l.find? p).map g := by
  induction l with
  | nil => rfl
  | cons a t ih =>
    simp only [List.map_cons]
    cases hpa : p a
    · rw [List.find?_cons_of_neg, List.find?_cons_of_neg, ih]
      · simp [hpa]
      · simp [hp a, hpa]
    · rw [List.find?_cons_of_pos, List.find?_cons_of_pos]
      · simp
      · exact hpa
      · rw [hp a]; exact hpa

lemma find?_updateKey {β : Type} (l : List (Oid × β)) (rid k : Oid) (f : β → β) :
    (updateKey l rid f).find? (fun p => p.1 == k)
      = (l.find? (fun p => p.1 == k)).map (fun p => if p.1 == rid then (p.1, f p.2) else p) := by
  apply find?_map_of_pred
  intro x
  by_cases h : x.1 == rid <;> simp [h]

lemma findResp_setRespStatus_same (s : Store) (rid : Oid) (st : String) :
    findResp (setRespStatus s rid st) rid =
      (findResp s rid).map (fun r => { r with status := st }) := by
  unfold findResp setRespStatus
  simp only
  rw [find?_updateKey]
  cases hf : s.responses.find? (fun p => p.1 == rid) with
  | none => rfl
  | some q =>
    have hq := List.find?_some hf
    simp [beq_iff_eq.mp hq]

lemma findReq_setReqStatus_same (s : Store) (rid : Oid) (st : String) :
    findReq (setReqStatus s rid st) rid =
      (findReq s rid).map (fun r => { r with status := st }) := by
  unfold findReq setReqStatus
  simp only
  rw [find?_updateKey]
  cases hf : s.requests.find? (fun p => p.1 == rid) with
  | none => rfl
  | some q =>
    have hq := List.find?_some hf
    simp [beq_iff_eq.mp hq]

lemma isEmpty_false_of_length (t : String) (h : t.length = 4) : t.isEmpty = false := by
  cases he : t.isEmpty
  · rfl
  · rw [String.isEmpty_iff] at he
    subst he
    simp at h

/-- Claim C1: when the stored confirmation token of an existing response
is non-null and equals the supplied form-valid token and no donation
record references the response id, confirm-donation succeeds, creates
exactly one DonationRecord with status Completed back-referencing the
response id, sets the response status to completed, and sets the parent
request status to fulfilled. -/
theorem confirm_donation_success (s : Store) (rid hid : Oid)
    (hname tok date info : String) (nrid : Oid) (resp : ResponseDoc)
    (hlen : tok.length = 4)
    (hvalid : oidIsValid rid = true)
    (hresp : findResp s rid = some resp)
    (htok : resp.confirmation_token = some tok)
    (hnorec : findRecordFor s rid = none) :
    ∃ s2, confirm_donation s rid hid hname tok date info nrid = .ok s2 ∧
      (s2.records.filter (fun p => p.2.original_response_id == rid)).map Prod.snd
        = [{ donor_id := resp.donor_id, hospital_id := hid, hospital_name := hname,
             donation_date := date, recipient_info := info, status := "Completed",
             original_response_id := rid }] ∧
      findResp s2 rid = some { resp with status := "completed" } ∧
      (∀ req, findReq s resp.request_id = some req →
        findReq s2 resp.request_id = some { req with status := "fulfilled" }) := by
  have hie := isEmpty_false_of_length tok hlen
  unfold confirm_donation
  rw [hresp]
  simp only [hlen, hvalid, htok, hnorec, tokenTruthy, hie, bne_self_eq_false,
    Bool.not_true, Bool.not_false, Bool.or_false, Bool.false_or, if_false,
    Bool.false_eq_true, if_neg, ite_false]
  refine ⟨_, rfl, ?_, ?_, ?_⟩
  · have h0 : s.records.find? (fun p => p.2.original_response_id == rid) = none := by
      unfold findRecordFor at hnorec
      exact Option.map_eq_none'.mp hnorec
    have h1 : s.records.filter (fun p => p.2.original_response_id == rid) = [] := by
      rw [List.filter_eq_nil_iff]
      intro a ha
      simpa using List.find?_eq_none.mp h0 a ha
    show ((s.records ++ _).filter _).map Prod.snd = _
    rw [List.filter_append, h1]
    simp
  · have e1 : findResp (setReqStatus (setRespStatus
        { s with records := s.records ++
            [(nrid, { donor_id := resp.donor_id, hospital_id := hid, hospital_name := hname,
                      donation_date := date, recipient_info := info, status := "Completed",
                      original_response_id := rid })] } rid "completed")
        resp.request_id "fulfilled") rid
        = findResp (setRespStatus
        { s with records := s.records ++
            [(nrid, { donor_id := resp.donor_id, hospital_id := hid, hospital_name := hname,
                      donation_date := date, recipient_info := info, status := "Completed",
                      original_response_id := rid })] } rid "completed") rid := rfl
    rw [e1, findResp_setRespStatus_same]
    have e2 : findResp { s with records := s.records ++
            [(nrid, { donor_id := resp.donor_id, hospital_id := hid, hospital_name := hname,
                      donation_date := date, recipient_info := info, status := "Completed",
                      original_response_id := rid })] } rid = findResp s rid := rfl
    rw [e2, hresp]
    simp [htok]
  · intro req hreq
    rw [findReq_setReqStatus_same]
    have e3 : findReq (setRespStatus
        { s with records := s.records ++
            [(nrid, { donor_id := resp.donor_id, hospital_id := hid, hospital_name := hname,
                      donation_date := date, recipient_info := info, status := "Completed",
                      original_response_id := rid })] } rid "completed") resp.request_id
        = findReq s resp.request_id := rfl
    rw [e3, hreq]
    rfl

/-- Claim C4: for an existing response, when the stored token is null or
differs from the supplied form-valid token, confirm-donation fails with
Unauthorized, creates no record, and leaves the store unchanged. -/
theorem confirm_donation_unauthorized (s : Store) (rid hid : Oid)
    (hname tok date info : String) (nrid : Oid) (resp : ResponseDoc)
    (hlen : tok.length = 4)
    (hvalid : oidIsValid rid = true)
    (hresp : findResp s rid = some resp)
    (htok : resp.confirmation_token = none ∨ resp.confirmation_token ≠ some tok) :
    confirm_donation s rid hid hname tok date info nrid = .error .unauthorized ∧
    step s (.confirmDonation rid hid hname tok date info nrid) = s := by
  have hmain : confirm_donation s rid hid hname tok date info nrid = .error .unauthorized := by
    unfold confirm_donation
    rw [hresp]
    rcases htok with ht | ht
    · simp [hlen, hvalid, ht, tokenTruthy]
    · cases hct : resp.confirmation_token with
      | none => simp [hlen, hvalid, hct, tokenTruthy]
      | some t =>
        have hne : t ≠ tok := by
          intro he
          exact ht (by rw [hct, he])
        simp [hlen, hvalid, hct, tokenTruthy, hne]
  refine ⟨hmain, ?_⟩
  unfold step
  simp only [runOp]
  rw [hmain]

/-- Claim C10: for a form-valid token, confirm-donation succeeds exactly
when the response id is a valid object id, the response exists, its
stored token equals the supplied token, and no donation record references
the response id; the condition never mentions the response status or the
parent request status, so a still-committed response with a matching
token confirms and confirmation succeeds when the parent request is not
active. -/
theorem confirm_donation_success_iff (s : Store) (rid hid : Oid)
    (hname tok date info : String) (nrid : Oid)
    (hlen : tok.length = 4) :
    exceptOk (confirm_donation s rid hid hname tok date info nrid) = true ↔
      (oidIsValid rid = true ∧ ∃ resp, findResp s rid = some resp ∧
        resp.confirmation_token = some tok ∧ findRecordFor s rid = none) := by
  have hie := isEmpty_false_of_length tok hlen
  unfold confirm_donation
  cases hv : oidIsValid rid with
  | false => simp [hlen, exceptOk]
  | true =>
    cases hr : findResp s rid with
    | none => simp [hlen, exceptOk, hr]
    | some resp =>
      cases ht : resp.confirmation_token with
      | none => simp [hlen, exceptOk, hr, ht, tokenTruthy]
      | some t =>
        by_cases hteq : t = tok
        · subst hteq
          cases hrec : findRecordFor s rid with
          | none => simp [hlen, exceptOk, hr, ht, tokenTruthy, hie, hrec]
          | some r0 => simp [hlen, exceptOk, hr, ht, tokenTruthy, hie, hrec]
        · simp [hlen, exceptOk, hr, ht, tokenTruthy, hteq]

/-- Claim C8: mark-in-progress sets the response status to in progress
exactly when the response exists with status committed; an already
in-progress response yields success without mutation; a missing response
is NotFound; any other status is an InvalidState (HTTP 400) error. -/
theorem set_response_in_progress_spec (s : Store) (rid : Oid)
    (hvalid : oidIsValid rid = true) :
    (findResp s rid = none →
        set_response_in_progress s rid = .error .notFound) ∧
    (∀ resp, findResp s rid = some resp → resp.status = "committed" →
        set_response_in_progress s rid = .ok (setRespStatus s rid "in progress") ∧
        findResp (setRespStatus s rid "in progress") rid
          = some { resp with status := "in progress" }) ∧
    (∀ resp, findResp s rid = some resp → resp.status = "in progress" →
        set_response_in_progress s rid = .ok s) ∧
    (∀ resp, findResp s rid = some resp → resp.status ≠ "committed" →
        resp.status ≠ "in progress" →
        set_response_in_progress s rid = .error .badRequest) := by
  refine ⟨fun h0 => ?_, fun resp hr hc => ⟨?_, ?_⟩, fun resp hr hp => ?_,
    fun resp hr hnc hnp => ?_⟩
  · unfold set_response_in_progress
    simp [hvalid, h0]
  · unfold set_response_in_progress
    simp [hvalid, hr, hc]
  · rw [findResp_setRespStatus_same, hr]
    rfl
  · unfold set_response_in_progress
    simp [hvalid, hr, hp]
  · unfold set_response_in_progress
    simp [hvalid, hr, hnc, hnp]

theorem confirm_donation_success_witness :
    ∃ s2, confirm_donation storeConfirm oidA oidC "City Hospital" "1234"
        "2025-03-01" "Patient Matched" oidE = .ok s2 ∧
      (s2.records.filter (fun p => p.2.original_response_id == oidA)).map Prod.snd
        = [{ donor_id := oidD, hospital_id := oidC, hospital_name := "City Hospital",
             donation_date := "2025-03-01", recipient_info := "Patient Matched",
             status := "Completed", original_response_id := oidA }] ∧
      findResp s2 oidA = some { request_id := oidB, donor_id := oidD,
                                status := "completed", responded_at := 0,
                                confirmation_token := some "1234" } ∧
      findReq s2 oidB = some { blood_type := "A+", quantity := 2,
                               patient_condition := "surgery", hospital_id := oidC,
                               status := "fulfilled" } := by
  obtain ⟨s2, h1, h2, h3, h4⟩ := confirm_donation_success storeConfirm oidA oidC
    "City Hospital" "1234" "2025-03-01" "Patient Matched" oidE
    { request_id := oidB, donor_id := oidD, status := "in progress",
      responded_at := 0, confirmation_token := some "1234" }
    (by decide) (by decide) (by decide) (by decide) (by decide)
  refine ⟨s2, h1, h2, h3, h4 { blood_type := "A+", quantity := 2,
                               patient_condition := "surgery", hospital_id := oidC,
                               status := "active" } (by decide)⟩

theorem confirm_donation_unauthorized_witness :
    confirm_donation storeConfirm oidA oidC "City Hospital" "9999"
        "2025-03-01" "Patient Matched" oidE = .error .unauthorized ∧
    step storeConfirm (.confirmDonation oidA oidC "City Hospital" "9999"
        "2025-03-01" "Patient Matched" oidE) = storeConfirm :=
  confirm_donation_unauthorized storeConfirm oidA oidC "City Hospital" "9999"
    "2025-03-01" "Patient Matched" oidE
    { request_id := oidB, donor_id := oidD, status := "in progress",
      responded_at := 0, confirmation_token := some "1234" }
    (by decide) (by decide) (by decide) (Or.inr (by decide))

theorem confirm_donation_success_iff_witness :
    exceptOk (confirm_donation storeConfirmInactive oidA oidC "City Hospital" "4321"
        "2025-03-01" "Patient Matched" oidE) = true ∧
    (findResp storeConfirmInactive oidA).map ResponseDoc.status = some "committed" ∧
    (findReq storeConfirmInactive oidB).map RequestDoc.status = some "cancelled" :=
  ⟨(confirm_donation_success_iff storeConfirmInactive oidA oidC "City Hospital" "4321"
      "2025-03-01" "Patient Matched" oidE (by decide)).mpr
      ⟨by decide, ⟨{ request_id := oidB, donor_id := oidD, status := "committed",
                     responded_at := 0, confirmation_token := some "4321" },
        by decide, by decide, by decide⟩⟩,
   by decide, by decide⟩

theorem set_response_in_progress_spec_witness :
    set_response_in_progress storeMark oidF = .error .notFound ∧
    (set_response_in_progress storeMark oidA = .ok (setRespStatus storeMark oidA "in progress") ∧
      findResp (setRespStatus storeMark oidA "in progress") oidA
        = some { request_id := oidB, donor_id := oidD, status := "in progress",
                 responded_at := 0, confirmation_token := some "1111" }) ∧
    set_response_in_progress storeMark oidB = .ok storeMark ∧
    set_response_in_progress storeMark oidC = .error .badRequest :=
  ⟨(set_response_in_progress_spec storeMark oidF (by decide)).1 (by decide),
   (set_response_in_progress_spec storeMark oidA (by decide)).2.1
     { request_id := oidB, donor_id := oidD, status := "committed",
       responded_at := 0, confirmation_token := some "1111" } (by decide) rfl,
   (set_response_in_progress_spec storeMark oidB (by decide)).2.2.1
     { request_id := oidB, donor_id := oidE, status := "in progress",
       responded_at := 1, confirmation_token := some "2222" } (by decide) rfl,
   (set_response_in_progress_spec storeMark oidC (by decide)).2.2.2
     { request_id := oidB, donor_id := oidF, status := "completed",
       responded_at := 2, confirmation_token := some "3333" } (by decide)
     (by decide) (by decide)⟩


lemma respond_ok_characterization (s : Store) (rid did : Oid) (cs gt : String)
    (nid : Oid) (now : Nat) (s2 : Store)
    (h : respond_to_request s rid did cs gt nid now = .ok s2) :
    s.responses.find? (fun p => p.2.request_id == rid && p.2.donor_id == did) = none ∧
    s2.responses = s.responses ++
      [(nid, { request_id := rid, donor_id := did, status := cs, responded_at := now,
               confirmation_token := if cs == "committed" then some gt else none })] ∧
    s2.requests = s.requests ∧ s2.records = s.records := by
  unfold respond_to_request at h
  split at h
  · cases h
  · split at h
    · cases h
    · split at h
      · cases h
      · split at h
        · cases h
        · rename_i hfind
          injection h with h
          subst h
          exact ⟨hfind, rfl, rfl, rfl⟩

lemma submit_step_preserves_unique (s : Store) (rid did : Oid) (cs gt : String)
    (nid : Oid) (now : Nat) (hu : responsesPairUnique s) :
    responsesPairUnique (step s (.submitResponse rid did cs gt nid now)) := by
  unfold step
  simp only [runOp]
  cases hres : respond_to_request s rid did cs gt nid now with
  | error e => exact hu
  | ok s2 =>
    obtain ⟨hfind, hresp, _, _⟩ := respond_ok_characterization s rid did cs gt nid now s2 hres
    unfold responsesPairUnique at hu ⊢
    rw [hresp, List.pairwise_append]
    refine ⟨hu, List.pairwise_singleton _ _, ?_⟩
    intro a ha b hb
    simp only [List.mem_singleton] at hb
    subst hb
    have hna := List.find?_eq_none.mp hfind a ha
    simp only [Bool.and_eq_true, beq_iff_eq, not_and] at hna
    intro hcontra
    exact hna hcontra.1 hcontra.2

lemma foldl_submits_preserves_unique (l : List Op) (s : Store)
    (hl : ∀ op ∈ l, Op.isSubmit op = true) (hu : responsesPairUnique s) :
    responsesPairUnique (l.foldl step s) := by
  induction l generalizing s with
  | nil => exact hu
  | cons op t ih =>
    have hop := hl op (List.mem_cons_self op t)
    have hstep : responsesPairUnique (step s op) := by
      cases op with
      | submitResponse rid did cs gt nid now =>
        exact submit_step_preserves_unique s rid did cs gt nid now hu
      | createRequest a b c d e => cases hop
      | updateRequest a b c d e => cases hop
      | deleteRequest a => cases hop
      | markInProgress a => cases hop
      | confirmDonation a b c d e f g => cases hop
    exact ih (step s op) (fun o ho => hl o (List.mem_cons_of_mem op ho)) hstep

/-- Claim C2 (amended): a second submit-response for a (donor, request)
pair that already has a response fails with Conflict when the request
still exists with status active (the handler checks request existence
and activeness first, so with a deleted or non-active request it fails
with NotFound or InvalidState instead), inserts nothing, and after any
sequence of submit-response operations the store holds at most one
response per (donor id, request id) pair. -/
theorem respond_to_request_duplicate (s : Store) (rid did : Oid)
    (cs gt : String) (nid : Oid) (now : Nat) (req : RequestDoc) (l : List Op)
    (hvalid : oidIsValid rid = true)
    (hreq : findReq s rid = some req)
    (hactive : req.status = "active")
    (hdup : (s.responses.find? (fun p =>
        p.2.request_id == rid && p.2.donor_id == did)).isSome = true)
    (hl : ∀ op ∈ l, Op.isSubmit op = true)
    (hu : responsesPairUnique s) :
    respond_to_request s rid did cs gt nid now = .error .conflict ∧
    step s (.submitResponse rid did cs gt nid now) = s ∧
    responsesPairUnique (l.foldl step s) := by
  have hconf : respond_to_request s rid did cs gt nid now = .error .conflict := by
    unfold respond_to_request
    cases hf : s.responses.find? (fun p =>
        p.2.request_id == rid && p.2.donor_id == did) with
    | none => rw [hf] at hdup; cases hdup
    | some q => simp [hvalid, hreq, hactive, hf]
  refine ⟨hconf, ?_, foldl_submits_preserves_unique l s hl hu⟩
  unfold step
  simp only [runOp]
  rw [hconf]

theorem respond_to_request_duplicate_witness :
    respond_to_request storeSubmitActive oidB oidD "committed" "5678" oidF 7
      = .error .conflict ∧
    step storeSubmitActive (.submitResponse oidB oidD "committed" "5678" oidF 7)
      = storeSubmitActive ∧
    responsesPairUnique
      ([Op.submitResponse oidB oidE "committed" "9999" oidF 5].foldl step storeSubmitActive) :=
  respond_to_request_duplicate storeSubmitActive oidB oidD "committed" "5678" oidF 7
    { blood_type := "A+", quantity := 1, patient_condition := "anemia",
      hospital_id := oidC, status := "active" }
    [Op.submitResponse oidB oidE "committed" "9999" oidF 5]
    (by decide) (by decide) rfl (by decide) (by decide)
    (by unfold responsesPairUnique; exact List.pairwise_singleton _ _)

theorem respond_to_request_duplicate_counterexample :
    (storeSubmitDup.responses.find? (fun p =>
        p.2.request_id == oidB && p.2.donor_id == oidD)).isSome = true ∧
    respond_to_request storeSubmitDup oidB oidD "committed" "5678" oidF 7
      = .error .badRequest :=
  ⟨by decide, by rfl⟩

lemma confirm_ok_characterization (s : Store) (rid hid : Oid)
    (hname tok date info : String) (nrid : Oid) (s2 : Store)
    (h : confirm_donation s rid hid hname tok date info nrid = .ok s2) :
    findRecordFor s rid = none ∧
    ∃ resp, findResp s rid = some resp ∧
      s2.records = s.records ++
        [(nrid, { donor_id := resp.donor_id, hospital_id := hid,
                  hospital_name := hname, donation_date := date,
                  recipient_info := info, status := "Completed",
                  original_response_id := rid })] ∧
      s2.requests = updateKey s.requests resp.request_id (fun r => { r with status := "fulfilled" }) := by
  unfold confirm_donation at h
  split at h
  · cases h
  · split at h
    · cases h
    · split at h
      · cases h
      · rename_i resp hresp
        split at h
        · cases h
        · split at h
          · cases h
          · rename_i hrec
            injection h with h
            subst h
            exact ⟨hrec, resp, hresp, rfl, rfl⟩

lemma confirm_step_preserves_recordsUnique (s : Store) (rid hid : Oid)
    (hname tok date info : String) (nrid : Oid) (hu : recordsUnique s) :
    recordsUnique (step s (.confirmDonation rid hid hname tok date info nrid)) := by
  unfold step
  simp only [runOp]
  cases hres : confirm_donation s rid hid hname tok date info nrid with
  | error e => exact hu
  | ok s2 =>
    obtain ⟨hnone, resp, hresp, hrecs, _⟩ :=
      confirm_ok_characterization s rid hid hname tok date info nrid s2 hres
    unfold recordsUnique at hu ⊢
    rw [hrecs, List.pairwise_append]
    refine ⟨hu, List.pairwise_singleton _ _, ?_⟩
    intro a ha b hb
    simp only [List.mem_singleton] at hb
    subst hb
    unfold findRecordFor at hnone
    have h0 : s.records.find? (fun p => p.2.original_response_id == rid) = none :=
      Option.map_eq_none'.mp hnone
    have ha0 := List.find?_eq_none.mp h0 a ha
    show a.2.original_response_id ≠ rid
    simpa using ha0

lemma foldl_confirms_preserves_recordsUnique (l : List Op) (s : Store)
    (hl : ∀ op ∈ l, Op.isConfirm op = true) (hu : recordsUnique s) :
    recordsUnique (l.foldl step s) := by
  induction l generalizing s with
  | nil => exact hu
  | cons op t ih =>
    have hop := hl op (List.mem_cons_self op t)
    have hstep : recordsUnique (step s op) := by
      cases op with
      | confirmDonation a b c d e f g =>
        exact confirm_step_preserves_recordsUnique s a b c d e f g hu
      | createRequest a b c d e => cases hop
      | updateRequest a b c d e => cases hop
      | deleteRequest a => cases hop
      | markInProgress a => cases hop
      | submitResponse a b c d e f => cases hop
    exact ih (step s op) (fun o ho => hl o (List.mem_cons_of_mem op ho)) hstep

/-- Claim C3 (amended): when a donation record already references the
response id, confirm-donation always fails and mutates nothing; it fails
with Conflict when the supplied token matches the stored non-null token,
while a token mismatch is reported first as Unauthorized; after any
sequence of confirm-donation operations at most one record exists per
response id. -/
theorem confirm_donation_duplicate_guard (s : Store) (rid hid : Oid)
    (hname tok date info : String) (nrid : Oid) (resp : ResponseDoc) (l : List Op)
    (hlen : tok.length = 4)
    (hvalid : oidIsValid rid = true)
    (hresp : findResp s rid = some resp)
    (hdup : (findRecordFor s rid).isSome = true)
    (hl : ∀ op ∈ l, Op.isConfirm op = true)
    (hu : recordsUnique s) :
    exceptOk (confirm_donation s rid hid hname tok date info nrid) = false ∧
    step s (.confirmDonation rid hid hname tok date info nrid) = s ∧
    (resp.confirmation_token = some tok →
      confirm_donation s rid hid hname tok date info nrid = .error .conflict) ∧
    recordsUnique (l.foldl step s) := by
  have h1 : exceptOk (confirm_donation s rid hid hname tok date info nrid) = false := by
    unfold confirm_donation
    cases hrec : findRecordFor s rid with
    | none => rw [hrec] at hdup; exact absurd hdup (by simp)
    | some r0 =>
      cases hg : (!tokenTruthy resp.confirmation_token
          || resp.confirmation_token != some tok) with
      | true => simp [hlen, hvalid, hresp, hg, exceptOk]
      | false => simp [hlen, hvalid, hresp, hg, hrec, exceptOk]
  refine ⟨h1, ?_, ?_, foldl_confirms_preserves_recordsUnique l s hl hu⟩
  · cases hr : confirm_donation s rid hid hname tok date info nrid with
    | error e => unfold step; simp only [runOp]; rw [hr]
    | ok s2 => rw [hr] at h1; simp [exceptOk] at h1
  · intro ht
    have hie := isEmpty_false_of_length tok hlen
    unfold confirm_donation
    cases hrec : findRecordFor s rid with
    | none => rw [hrec] at hdup; exact absurd hdup (by simp)
    | some r0 => simp [hlen, hvalid, hresp, ht, tokenTruthy, hie, hrec]

theorem confirm_donation_duplicate_guard_witness :
    exceptOk (confirm_donation storeRecordDup oidA oidC "City Hospital" "1234"
      "2025-02-02" "second try" oidF) = false ∧
    step storeRecordDup (.confirmDonation oidA oidC "City Hospital" "1234"
      "2025-02-02" "second try" oidF) = storeRecordDup ∧
    (ResponseDoc.confirmation_token { request_id := oidB, donor_id := oidD,
                                      status := "completed", responded_at := 0,
                                      confirmation_token := some "1234" } = some "1234" →
      confirm_donation storeRecordDup oidA oidC "City Hospital" "1234"
        "2025-02-02" "second try" oidF = .error .conflict) ∧
    recordsUnique ([Op.confirmDonation oidA oidC "City Hospital" "1234"
      "2025-02-02" "second try" oidF].foldl step storeRecordDup) :=
  confirm_donation_duplicate_guard storeRecordDup oidA oidC "City Hospital" "1234"
    "2025-02-02" "second try" oidF
    { request_id := oidB, donor_id := oidD, status := "completed",
      responded_at := 0, confirmation_token := some "1234" }
    [Op.confirmDonation oidA oidC "City Hospital" "1234" "2025-02-02" "second try" oidF]
    (by decide) (by decide) (by decide) (by decide) (by decide)
    (by unfold recordsUnique; exact List.pairwise_singleton _ _)

theorem confirm_donation_duplicate_guard_counterexample :
    (findRecordFor storeRecordDup oidA).isSome = true ∧
    confirm_donation storeRecordDup oidA oidC "City Hospital" "9999"
      "2025-02-02" "second try" oidF = .error .unauthorized :=
  ⟨by decide, by rfl⟩

lemma filterMap_filter_eq_map_filter {α β : Type} (pre : α → Bool)
    (f : α → Option β) (elig : α → Bool) (g : α → β)
    (hcompat : ∀ x, (if pre x then f x else none)
      = if elig x then some (g x) else none) (l : List α) :
    (l.filter pre).filterMap f = (l.filter elig).map g := by
  induction l with
  | nil => rfl
  | cons a t ih =>
    have ha := hcompat a
    by_cases hp : pre a
    · rw [List.filter_cons_of_pos hp]
      rw [if_pos hp] at ha
      by_cases he : elig a
      · rw [List.filter_cons_of_pos he, List.filterMap_cons, List.map_cons]
        rw [if_pos he] at ha
        rw [ha, ih]
      · rw [List.filter_cons_of_neg he, List.filterMap_cons]
        rw [if_neg he] at ha
        rw [ha, ih]
    · rw [List.filter_cons_of_neg hp]
      rw [if_neg hp] at ha
      by_cases he : elig a
      · rw [if_pos he] at ha
        exact absurd ha (by simp)
      · rw [List.filter_cons_of_neg he, ih]

/-- Claim C6 (amended): for every distance function, find_nearby_donors
returns exactly the available compatible donors with numeric coordinates
whose distance from the origin is within the radius, each carrying the
rounded distance, in the order the user collection stores them (the
source never sorts by distance); donors with missing or malformed
coordinates are skipped without aborting the search, and no donor beyond
the radius appears. -/
theorem find_nearby_donors_spec (dist : ℚ → ℚ → ℚ → ℚ → ℚ)
    (hlat hlon : ℚ) (bt : String) (radius : ℚ) (users : List (Oid × UserDoc)) :
    find_nearby_donors dist hlat hlon bt radius users =
      (users.filter
        (donorEligible dist (get_compatible_donor_types bt) hlat hlon radius)).map
        (nearbySummary dist hlat hlon) := by
  unfold find_nearby_donors
  apply filterMap_filter_eq_map_filter
  intro x
  unfold donorEligible nearbySummary
  by_cases h1 : (x.2.role == "donor"
      && (get_compatible_donor_types bt).contains x.2.blood_type
      && x.2.availability_status == "available")
  · rw [if_pos h1]
    cases hc : coordsOf x.2 with
    | none => simp [h1, hc]
    | some q =>
      obtain ⟨la, lo⟩ := q
      by_cases hd : dist hlat hlon la lo ≤ radius
      · rw [if_pos (show _ = true by
          simp only [h1, Bool.true_and, decide_eq_true_eq]
          exact hd)]
        simp [hd]
      · simp [h1, hc, hd]
  · rw [if_neg h1]
    have h1f : (x.2.role == "donor"
        && (get_compatible_donor_types bt).contains x.2.blood_type
        && x.2.availability_status == "available") = false :=
      Bool.eq_false_iff.mpr h1
    rw [h1f]
    simp

theorem find_nearby_donors_counterexample :
    (find_nearby_donors projDist 0 0 "O-" 50 usersUnsorted).map
        MatchedDonor.distance_km = [5, 1] ∧
    ¬ List.Sorted (· ≤ ·) ((find_nearby_donors projDist 0 0 "O-" 50 usersUnsorted).map
        MatchedDonor.distance_km) := by
  constructor
  · decide
  · decide

lemma minByDistance_mem (h : FoundDonor) (t : List FoundDonor) :
    minByDistance h t ∈ h :: t := by
  induction t generalizing h with
  | nil => exact List.mem_singleton_self h
  | cons b tt ih =>
    unfold minByDistance
    simp only [List.foldl_cons]
    have hmem := ih (if b.distance_km < h.distance_km then b else h)
    unfold minByDistance at hmem
    rcases List.mem_cons.mp hmem with h1 | h1
    · rw [h1]
      by_cases hb : b.distance_km < h.distance_km
      · rw [if_pos hb]
        exact List.mem_cons_of_mem _ (List.mem_cons_self _ _)
      · rw [if_neg hb]
        exact List.mem_cons_self _ _
    · exact List.mem_cons_of_mem _ (List.mem_cons_of_mem _ h1)

lemma minByDistance_le (h : FoundDonor) (t : List FoundDonor) :
    ∀ d ∈ h :: t, (minByDistance h t).distance_km ≤ d.distance_km := by
  induction t generalizing h with
  | nil =>
    intro d hd
    rw [List.mem_singleton] at hd
    subst hd
    unfold minByDistance
    simp
  | cons b tt ih =>
    intro d hd
    unfold minByDistance
    simp only [List.foldl_cons]
    have hres := ih (if b.distance_km < h.distance_km then b else h)
    unfold minByDistance at hres
    have hfle_h : (if b.distance_km < h.distance_km then b else h).distance_km
        ≤ h.distance_km := by
      by_cases hb : b.distance_km < h.distance_km
      · rw [if_pos hb]; exact le_of_lt hb
      · rw [if_neg hb]
    have hfle_b : (if b.distance_km < h.distance_km then b else h).distance_km
        ≤ b.distance_km := by
      by_cases hb : b.distance_km < h.distance_km
      · rw [if_pos hb]
      · rw [if_neg hb]; exact le_of_not_lt hb
    have hself := hres _ (List.mem_cons_self _ _)
    rcases List.mem_cons.mp hd with rfl | hd2
    · exact le_trans hself hfle_h
    · rcases List.mem_cons.mp hd2 with rfl | hd3
      · exact le_trans hself hfle_b
      · exact hres _ (List.mem_cons_of_mem _ hd3)

lemma any_bsonEq_objectId_str (x : Oid) (l : List (Oid × ResponseDoc)) :
    ((l.map (fun p => BsonVal.str p.2.donor_id)).any
      (fun d => bsonEq (.objectId x) d)) = false := by
  induction l with
  | nil => rfl
  | cons a t ih =>
    simp only [List.map_cons, List.any_cons, ih, Bool.or_false]
    rfl

/-- Claim C7 (amended): whenever find_next_suitable_donor returns a
candidate, the candidate belongs to the pool of available donors whose
blood type equals the requested type exactly (not the compatible set of
the resolver), and its rounded distance is minimal in that pool; the
exclusion of donors already engaged with the request never takes effect,
because the stored donor_id values are strings while the user ids are
ObjectIds and BSON equality never holds across types, so every
exact-match, available donor with numeric coordinates within the radius
is in the pool, engaged or not. -/
theorem find_next_suitable_donor_spec (dist : ℚ → ℚ → ℚ → ℚ → ℚ)
    (rid : Oid) (bt : String) (hlat hlon r : ℚ) (s : Store) (m : FoundDonor)
    (hm : find_next_suitable_donor dist rid bt hlat hlon r s = some m) :
    m ∈ foundDonors dist rid bt hlat hlon r s ∧
    (∀ d ∈ foundDonors dist rid bt hlat hlon r s, m.distance_km ≤ d.distance_km) ∧
    (∀ id u la lo, (id, u) ∈ s.users → u.role = "donor" → u.blood_type = bt →
      u.availability_status = "available" →
      coordsOf u = some (la, lo) → dist hlat hlon la lo ≤ r →
      ({ id := id, distance_km := round2 (dist hlat hlon la lo),
         full_name := u.full_name } : FoundDonor)
        ∈ foundDonors dist rid bt hlat hlon r s) := by
  unfold find_next_suitable_donor at hm
  refine ⟨?_, ?_, ?_⟩
  · cases hl : foundDonors dist rid bt hlat hlon r s with
    | nil => rw [hl] at hm; cases hm
    | cons h t =>
      rw [hl] at hm
      injection hm with hm
      subst hm
      exact minByDistance_mem h t
  · cases hl : foundDonors dist rid bt hlat hlon r s with
    | nil => rw [hl] at hm; cases hm
    | cons h t =>
      rw [hl] at hm
      injection hm with hm
      subst hm
      exact minByDistance_le h t
  · intro id u la lo hu hrole hbt havail hco hdist
    unfold foundDonors
    apply List.mem_filterMap.mpr
    refine ⟨(id, u), ?_, ?_⟩
    · apply List.mem_filter.mpr
      refine ⟨hu, ?_⟩
      simp only [Bool.and_eq_true, beq_iff_eq]
      refine ⟨⟨⟨hrole, hbt⟩, havail⟩, ?_⟩
      rw [any_bsonEq_objectId_str]
      rfl
    · rw [show coordsOf (id, u).2 = some (la, lo) from hco]
      simp [hdist]

/-- Two concrete refutations of the claim: a compatible universal donor
is not matched for an A+ request because the code requires exact
blood-type equality, and a donor who already responded to the request is
still matched because the nin exclusion compares string donor ids
against ObjectId user ids and removes nobody; the claim-worded pool
differs from the code pool in both directions. -/
theorem find_next_suitable_donor_counterexample :
    (find_next_suitable_donor projDist oidB "A+" 0 0 50 storeMatcherO = none ∧
      specCandidatePool oidB "A+" storeMatcherO
        = [(oidD, donorAt "Olive" "O-" 1 0)]) ∧
    (find_next_suitable_donor projDist oidE "A+" 0 0 50 storeMatcherEngaged
        = some { id := oidC, distance_km := 2, full_name := "Engaged" } ∧
      specCandidatePool oidE "A+" storeMatcherEngaged = []) :=
  ⟨⟨by decide, by decide⟩, ⟨by decide, by decide⟩⟩

theorem find_next_suitable_donor_spec_witness :
    find_next_suitable_donor projDist oidE "A+" 0 0 50 storeMatcherA
      = some { id := oidB, distance_km := 1, full_name := "NearA" } ∧
    ({ id := oidB, distance_km := 1, full_name := "NearA" } : FoundDonor)
      ∈ foundDonors projDist oidE "A+" 0 0 50 storeMatcherA ∧
    (∀ d ∈ foundDonors projDist oidE "A+" 0 0 50 storeMatcherA,
      FoundDonor.distance_km { id := oidB, distance_km := 1, full_name := "NearA" }
        ≤ d.distance_km) ∧
    ({ id := oidC, distance_km := 2, full_name := "Engaged" } : FoundDonor)
      ∈ foundDonors projDist oidE "A+" 0 0 50 storeMatcherA := by
  have hm : find_next_suitable_donor projDist oidE "A+" 0 0 50 storeMatcherA
      = some { id := oidB, distance_km := 1, full_name := "NearA" } := by decide
  obtain ⟨h1, h2, h3⟩ :=
    find_next_suitable_donor_spec projDist oidE "A+" 0 0 50 storeMatcherA _ hm
  refine ⟨hm, h1, h2, ?_⟩
  have h4 := h3 oidC (donorAt "Engaged" "A+" 2 0) 2 0 (by decide) (by decide)
    (by decide) (by decide) (by decide) (by decide)
  simpa using h4

lemma step_of_error (s : Store) (op : Op) (e : ApiError)
    (hr : runOp s op = .error e) : step s op = s := by
  unfold step
  rw [hr]

lemma step_of_ok (s : Store) (op : Op) (s2 : Store)
    (hr : runOp s op = .ok s2) : step s op = s2 := by
  unfold step
  rw [hr]

lemma update_request_ok_characterization (s : Store) (rid : Oid)
    (bt st pc : Option String) (qty : Option Int) (s2 : Store)
    (h : update_request s rid bt st pc qty = .ok s2) :
    s2.requests = updateKey s.requests rid
      (fun r => applyRequestUpdate r bt st pc qty) := by
  unfold update_request at h
  split at h
  · cases h
  · split at h
    · cases h
    · split at h
      · cases h
      · injection h with h
        subst h
        rfl

lemma delete_request_ok_characterization (s : Store) (rid : Oid) (s2 : Store)
    (h : delete_request s rid = .ok s2) :
    s2.requests = s.requests.filter (fun p => p.1 != rid) := by
  unfold delete_request at h
  split at h
  · cases h
  · split at h
    · injection h with h
      subst h
      rfl
    · cases h

lemma markInProgress_ok_requests (s : Store) (rid : Oid) (s2 : Store)
    (h : set_response_in_progress s rid = .ok s2) : s2.requests = s.requests := by
  unfold set_response_in_progress at h
  split at h
  · cases h
  · split at h
    · cases h
    · split at h
      · injection h with h
        subst h
        rfl
      · split at h
        · injection h with h
          subst h
          rfl
        · cases h

lemma applyRequestUpdate_status_none (req : RequestDoc) (bt pc : Option String)
    (qty : Option Int) :
    (applyRequestUpdate req bt none pc qty).status = req.status := by
  unfold applyRequestUpdate
  cases bt <;> cases qty <;> cases pc <;> (repeat' split) <;> simp_all

lemma applyRequestUpdate_status_some (req : RequestDoc) (bt pc : Option String)
    (qty : Option Int) (v : String) :
    (applyRequestUpdate req bt (some v) pc qty).status
      = if v.isEmpty then req.status else v := by
  unfold applyRequestUpdate
  cases bt <;> cases qty <;> cases pc <;> (repeat' split) <;> simp_all

lemma find?_filter_ne (l : List (Oid × RequestDoc)) (rid did : Oid)
    (hne : rid ≠ did) :
    (l.filter (fun p => p.1 != did)).find? (fun p => p.1 == rid)
      = l.find? (fun p => p.1 == rid) := by
  induction l with
  | nil => rfl
  | cons a t ih =>
    rw [List.filter_cons]
    by_cases ha : (a.1 == rid) = true
    · have hav : a.1 = rid := beq_iff_eq.mp ha
      have had : (a.1 != did) = true := by
        subst hav
        simpa using hne
      rw [if_pos had]
      have e1 : List.find? (fun p => p.1 == rid)
          (a :: List.filter (fun p => p.1 != did) t) = some a :=
        List.find?_cons_of_pos _ ha
      have e2 : List.find? (fun p => p.1 == rid) (a :: t) = some a :=
        List.find?_cons_of_pos _ ha
      rw [e1, e2]
    · have e2 : List.find? (fun p => p.1 == rid) (a :: t)
          = List.find? (fun p => p.1 == rid) t :=
        List.find?_cons_of_neg _ ha
      by_cases had : (a.1 != did) = true
      · rw [if_pos had]
        have e1 : List.find? (fun p => p.1 == rid)
            (a :: List.filter (fun p => p.1 != did) t)
            = List.find? (fun p => p.1 == rid) (List.filter (fun p => p.1 != did) t) :=
          List.find?_cons_of_neg _ ha
        rw [e1, e2, ih]
      · rw [if_neg had, ih, e2]

lemma find?_filter_self (l : List (Oid × RequestDoc)) (did : Oid) :
    (l.filter (fun p => p.1 != did)).find? (fun p => p.1 == did) = none := by
  apply List.find?_eq_none.mpr
  intro x hx
  have hx2 := (List.mem_filter.mp hx).2
  simpa using hx2

lemma findReq_some_unique (s : Store) (rid : Oid) (req req2 : RequestDoc)
    (h1 : findReq s rid = some req) (h3 : findReq s rid = some req2) :
    req2 = req := by
  rw [h1] at h3
  injection h3 with h3
  exact h3.symm

/-- Claim C9 (amended): a stored request changes status to fulfilled only
through a successful confirm-donation or through an update-request
operation whose status_update field is fulfilled; no other modelled
operation ever moves a request from a non-fulfilled status to
fulfilled. -/
theorem request_fulfilled_only_by (s : Store) (op : Op) (rid : Oid)
    (req req2 : RequestDoc)
    (h1 : findReq s rid = some req)
    (h2 : req.status ≠ "fulfilled")
    (h3 : findReq (step s op) rid = some req2)
    (h4 : req2.status = "fulfilled") :
    (op.isConfirm = true ∧ exceptOk (runOp s op) = true) ∨
    op.statusUpdateArg = some "fulfilled" := by
  obtain ⟨q, hq, hq2⟩ := Option.map_eq_some'.mp h1
  cases op with
  | createRequest hid bt qty pc nid =>
    exfalso
    have hstep : step s (.createRequest hid bt qty pc nid)
        = { s with requests := s.requests ++
            [(nid, { blood_type := bt, quantity := qty, patient_condition := pc,
                     hospital_id := hid, status := "active" })] } := rfl
    rw [hstep] at h3
    unfold findReq at h3
    simp only [List.find?_append, hq] at h3
    rw [show ((some q).or (List.find? (fun p => p.1 == rid) _)) = some q from rfl] at h3
    simp only [Option.map_some'] at h3
    injection h3 with h3
    rw [h3] at hq2
    rw [hq2] at h4
    exact h2 h4
  | updateRequest rid2 bt st pc qty =>
    cases hr : update_request s rid2 bt st pc qty with
    | error e =>
      exfalso
      rw [step_of_error s (.updateRequest rid2 bt st pc qty) e hr] at h3
      have := findReq_some_unique s rid req req2 h1 h3
      rw [this] at h4
      exact h2 h4
    | ok s2 =>
      rw [step_of_ok s (.updateRequest rid2 bt st pc qty) s2 hr] at h3
      have hreqs := update_request_ok_characterization s rid2 bt st pc qty s2 hr
      unfold findReq at h3
      rw [hreqs, find?_updateKey, hq] at h3
      simp only [Option.map_some'] at h3
      injection h3 with h3
      by_cases hqr : (q.1 == rid2) = true
      · rw [if_pos hqr] at h3
        dsimp only at h3
        cases st with
        | none =>
          exfalso
          have hs : req2.status = req.status := by
            rw [← h3, applyRequestUpdate_status_none, hq2]
          rw [hs] at h4
          exact h2 h4
        | some v =>
          by_cases hv : v.isEmpty = true
          · exfalso
            have hs : req2.status = req.status := by
              rw [← h3, applyRequestUpdate_status_some, if_pos hv, hq2]
            rw [hs] at h4
            exact h2 h4
          · right
            have hs : req2.status = v := by
              rw [← h3, applyRequestUpdate_status_some, if_neg hv]
            rw [hs] at h4
            rw [h4]
            rfl
      · exfalso
        rw [if_neg hqr] at h3
        rw [h3] at hq2
        rw [hq2] at h4
        exact h2 h4
  | deleteRequest did =>
    exfalso
    cases hr : delete_request s did with
    | error e =>
      rw [step_of_error s (.deleteRequest did) e hr] at h3
      have := findReq_some_unique s rid req req2 h1 h3
      rw [this] at h4
      exact h2 h4
    | ok s2 =>
      rw [step_of_ok s (.deleteRequest did) s2 hr] at h3
      have hreqs := delete_request_ok_characterization s did s2 hr
      unfold findReq at h3
      rw [hreqs] at h3
      by_cases hrd : rid = did
      · subst hrd
        rw [find?_filter_self] at h3
        cases h3
      · rw [find?_filter_ne _ _ _ hrd, hq] at h3
        simp only [Option.map_some'] at h3
        injection h3 with h3
        rw [h3] at hq2
        rw [hq2] at h4
        exact h2 h4
  | submitResponse rid2 did cs gt nid now =>
    exfalso
    cases hr : respond_to_request s rid2 did cs gt nid now with
    | error e =>
      rw [step_of_error s (.submitResponse rid2 did cs gt nid now) e hr] at h3
      have := findReq_some_unique s rid req req2 h1 h3
      rw [this] at h4
      exact h2 h4
    | ok s2 =>
      rw [step_of_ok s (.submitResponse rid2 did cs gt nid now) s2 hr] at h3
      obtain ⟨_, _, hreqs, _⟩ :=
        respond_ok_characterization s rid2 did cs gt nid now s2 hr
      unfold findReq at h3
      rw [hreqs, hq] at h3
      simp only [Option.map_some'] at h3
      injection h3 with h3
      rw [h3] at hq2
      rw [hq2] at h4
      exact h2 h4
  | markInProgress rid2 =>
    exfalso
    cases hr : set_response_in_progress s rid2 with
    | error e =>
      rw [step_of_error s (.markInProgress rid2) e hr] at h3
      have := findReq_some_unique s rid req req2 h1 h3
      rw [this] at h4
      exact h2 h4
    | ok s2 =>
      rw [step_of_ok s (.markInProgress rid2) s2 hr] at h3
      have hreqs := markInProgress_ok_requests s rid2 s2 hr
      unfold findReq at h3
      rw [hreqs, hq] at h3
      simp only [Option.map_some'] at h3
      injection h3 with h3
      rw [h3] at hq2
      rw [hq2] at h4
      exact h2 h4
  | confirmDonation rid2 hid hname tok date info nrid =>
    cases hr : confirm_donation s rid2 hid hname tok date info nrid with
    | error e =>
      exfalso
      rw [step_of_error s (.confirmDonation rid2 hid hname tok date info nrid) e hr] at h3
      have := findReq_some_unique s rid req req2 h1 h3
      rw [this] at h4
      exact h2 h4
    | ok s2 =>
      left
      constructor
      · rfl
      · show exceptOk (confirm_donation s rid2 hid hname tok date info nrid) = true
        rw [hr]
        rfl

theorem request_fulfilled_only_by_witness :
    (Op.isConfirm (.confirmDonation oidA oidC "City Hospital" "1234"
        "2025-03-01" "Patient Matched" oidE) = true ∧
      exceptOk (runOp storeConfirm (.confirmDonation oidA oidC "City Hospital"
        "1234" "2025-03-01" "Patient Matched" oidE)) = true) ∨
    Op.statusUpdateArg (.confirmDonation oidA oidC "City Hospital" "1234"
        "2025-03-01" "Patient Matched" oidE) = some "fulfilled" :=
  request_fulfilled_only_by storeConfirm
    (.confirmDonation oidA oidC "City Hospital" "1234" "2025-03-01"
      "Patient Matched" oidE) oidB
    { blood_type := "A+", quantity := 2, patient_condition := "surgery",
      hospital_id := oidC, status := "active" }
    { blood_type := "A+", quantity := 2, patient_condition := "surgery",
      hospital_id := oidC, status := "fulfilled" }
    (by decide) (by decide) (by decide) (by decide)

theorem request_fulfilled_only_by_counterexample :
    (findReq storeSubmitActive oidB).map RequestDoc.status = some "active" ∧
    (findReq (step storeSubmitActive
        (.updateRequest oidB none (some "fulfilled") none none)) oidB).map
        RequestDoc.status = some "fulfilled" ∧
    Op.isConfirm (.updateRequest oidB none (some "fulfilled") none none) = false :=
  ⟨by decide, by decide, by decide⟩

/-- Claim C5: get_compatible_donor_types depends only on the case- and
space-normalized form of its input; every recognized recipient type maps
to a compatibility set containing O-; an unrecognized input maps to the
singleton of its normalized self. -/
theorem compatible_donor_types_spec (s : String) :
    (∀ t, normalizeBT s = normalizeBT t →
        get_compatible_donor_types s = get_compatible_donor_types t) ∧
    (recognized8.contains (normalizeBT s) = true →
        "O-" ∈ get_compatible_donor_types s) ∧
    (recognized8.contains (normalizeBT s) = false →
        get_compatible_donor_types s = [normalizeBT s]) := by
  refine ⟨fun t h => ?_, fun h => ?_, fun h => ?_⟩
  · unfold get_compatible_donor_types
    rw [h]
  · have h8 : normalizeBT s = "O-" ∨ normalizeBT s = "O+" ∨ normalizeBT s = "A-" ∨
        normalizeBT s = "A+" ∨ normalizeBT s = "B-" ∨ normalizeBT s = "B+" ∨
        normalizeBT s = "AB-" ∨ normalizeBT s = "AB+" := by
      simpa [recognized8, compatibility_map] using h
    unfold get_compatible_donor_types
    rcases h8 with h8|h8|h8|h8|h8|h8|h8|h8 <;> rw [h8] <;> decide
  · have h8 : ¬ normalizeBT s = "O-" ∧ ¬ normalizeBT s = "O+" ∧ ¬ normalizeBT s = "A-" ∧
        ¬ normalizeBT s = "A+" ∧ ¬ normalizeBT s = "B-" ∧ ¬ normalizeBT s = "B+" ∧
        ¬ normalizeBT s = "AB-" ∧ ¬ normalizeBT s = "AB+" := by
      simpa [recognized8, compatibility_map] using h
    obtain ⟨h1, h2, h3, h4, h5, h6, h7, h8⟩ := h8
    unfold get_compatible_donor_types compatLookup
    simp [compatibility_map, List.lookup, beq_eq_false_iff_ne.mpr h1,
      beq_eq_false_iff_ne.mpr h2, beq_eq_false_iff_ne.mpr h3, beq_eq_false_iff_ne.mpr h4,
      beq_eq_false_iff_ne.mpr h5, beq_eq_false_iff_ne.mpr h6, beq_eq_false_iff_ne.mpr h7,
      beq_eq_false_iff_ne.mpr h8]

/-- Concrete instances of the compatibility claims: a lower-case input
with surrounding spaces, a recognized type containing O-, an unrecognized
fallback. -/
theorem compatible_donor_types_spec_witness :
    get_compatible_donor_types " a+" = get_compatible_donor_types "A+" ∧
    "O-" ∈ get_compatible_donor_types " a+" ∧
    get_compatible_donor_types "x9" = ["X9"] :=
  ⟨(compatible_donor_types_spec " a+").1 "A+" (by decide),
   (compatible_donor_types_spec " a+").2.1 (by decide),
   (compatible_donor_types_spec "x9").2.2 (by decide)⟩

end LifelinkGh
